import Mathlib

/-!
Shallow Lean 4 embedding of the renewable-viz data pipeline
(src/data-processing/models.py, src/data-processing/eia_atlas_client.py,
src/data-processing/filters.py, src/scripts/export_comprehensive_data.py),
with theorems settling the specification claims about it.

Conventions of the embedding:
* JSON numbers are modelled uniformly as rationals.
* Python dictionaries of raw attributes are association lists; lookup
  returns the binding of the first matching key.
* The HTTP transport is abstracted as a function from the result offset to
  the page the server returns, and the unbounded `while True` pagination
  loop is given explicit fuel; running out of fuel yields `none`.
* Fallible code returns `Except String`.
-/

namespace RenewableViz

/-- Enumeration of energy types (models.py, class EnergyType). -/
inductive EnergyType where
  | COAL
  | NATURAL_GAS
  | NUCLEAR
  | HYDRO
  | HYDRO_PUMPED
  | SOLAR
  | WIND
  | GEOTHERMAL
  | BIOMASS
  | BATTERY
  | OTHER
  | CRUDE_OIL
deriving DecidableEq, Repr

/-- Canonical string label of each EnergyType (the enum member values in
models.py). -/
def EnergyType.value : EnergyType → String
  | .COAL => "Coal"
  | .NATURAL_GAS => "Natural Gas"
  | .NUCLEAR => "Nuclear"
  | .HYDRO => "Hydroelectric"
  | .HYDRO_PUMPED => "Hydro Pumped Storage"
  | .SOLAR => "Solar"
  | .WIND => "Wind"
  | .GEOTHERMAL => "Geothermal"
  | .BIOMASS => "Biomass"
  | .BATTERY => "Battery Storage"
  | .OTHER => "Other"
  | .CRUDE_OIL => "Crude Oil"

/-- Character-list version of Python string prefix comparison. -/
def charsStartWith : List Char → List Char → Bool
  | [], _ => true
  | _ :: _, [] => false
  | a :: as, b :: bs => a == b && charsStartWith as bs

/-- Python substring containment test `needle in hay` on character
lists. -/
def charsContain (needle : List Char) : List Char → Bool
  | [] => needle.isEmpty
  | c :: rest => charsStartWith needle (c :: rest) || charsContain needle rest

/-- Python `needle in hay` on strings. -/
def strContains (needle hay : String) : Bool :=
  charsContain needle.toList hay.toList

/-- Python str.lower, modelled character by character (equivalent to
String.toLower, whose byte-position loop the kernel cannot evaluate). -/
def strLower (s : String) : String :=
  String.mk (s.toList.map Char.toLower)

/-- The ordered keyword table of PowerPlant.primary_energy_type
(models.py lines 113-127); Python dict literals iterate in insertion
order, so the embedding is an ordered association list. -/
def source_mapping : List (String × EnergyType) :=
  [("coal", .COAL),
   ("natural gas", .NATURAL_GAS),
   ("nuclear", .NUCLEAR),
   ("hydro", .HYDRO),
   ("hydroelectric", .HYDRO),
   ("solar", .SOLAR),
   ("wind", .WIND),
   ("geothermal", .GEOTHERMAL),
   ("biomass", .BIOMASS),
   ("batteries", .BATTERY),
   ("battery", .BATTERY),
   ("crude oil", .CRUDE_OIL),
   ("petroleum", .CRUDE_OIL)]

/-- The body of the PowerPlant.primary_energy_type property (models.py
lines 110-134): lower-case the primary source, scan the keyword table in
order, first substring match wins, no match yields OTHER. -/
def classifyPrimarySource (primary_source : String) : EnergyType :=
  let source_lower := strLower primary_source
  match source_mapping.find? (fun kt => strContains kt.1 source_lower) with
  | some kt => kt.2
  | none => .OTHER

/-- Geographic location value object (models.py, PowerPlantLocation). -/
structure PowerPlantLocation where
  latitude : ℚ
  longitude : ℚ
  city : String
  county : String
  state : String
  zip_code : Option ℚ := none
  street_address : Option String := none
deriving DecidableEq, Repr

/-- Capacity value object, megawatts per fuel (models.py,
PowerPlantCapacity); absent fields are `none`. -/
structure PowerPlantCapacity where
  total_mw : Option ℚ := none
  install_mw : Option ℚ := none
  coal_mw : Option ℚ := none
  natural_gas_mw : Option ℚ := none
  nuclear_mw : Option ℚ := none
  hydro_mw : Option ℚ := none
  hydro_pumped_mw : Option ℚ := none
  solar_mw : Option ℚ := none
  wind_mw : Option ℚ := none
  geothermal_mw : Option ℚ := none
  biomass_mw : Option ℚ := none
  battery_mw : Option ℚ := none
  crude_oil_mw : Option ℚ := none
  other_mw : Option ℚ := none
deriving DecidableEq, Repr

/-- Total renewable capacity: solar + wind + hydro + geothermal + biomass,
absent treated as 0 (models.py, get_renewable_capacity; the Python
idiom `x or 0` agrees with `Option.getD 0` because `0.0 or 0` is `0`). -/
def PowerPlantCapacity.get_renewable_capacity (c : PowerPlantCapacity) : ℚ :=
  c.solar_mw.getD 0 + c.wind_mw.getD 0 + c.hydro_mw.getD 0 +
    c.geothermal_mw.getD 0 + c.biomass_mw.getD 0

/-- Root plant entity (models.py, PowerPlant dataclass). -/
structure PowerPlant where
  object_id : ℚ
  plant_code : ℚ
  plant_name : String
  utility_name : String
  utility_id : ℚ
  sector_name : String
  primary_source : String
  location : PowerPlantLocation
  capacity : PowerPlantCapacity
  tech_desc : Option String := none
  source_desc : Option String := none
  data_period : Option ℚ := none
  source : Option String := none
deriving DecidableEq, Repr

/-- Derived primary energy type (models.py, property
PowerPlant.primary_energy_type), a pure function of primary_source. -/
def PowerPlant.primary_energy_type (p : PowerPlant) : EnergyType :=
  classifyPrimarySource p.primary_source

/-- Derived renewable flag (models.py, property PowerPlant.is_renewable). -/
def PowerPlant.is_renewable (p : PowerPlant) : Bool :=
  match p.primary_energy_type with
  | .SOLAR | .WIND | .HYDRO | .GEOTHERMAL | .BIOMASS => true
  | _ => false

/-- Query-parameter value object (models.py, PowerPlantQueryParams),
with the defaults of the dataclass. -/
structure PowerPlantQueryParams where
  where_clause : String := "1=1"
  out_fields : String := "*"
  out_sr : ℤ := 4326
  result_record_count : Option ℕ := none
  result_offset : Option ℕ := none
  order_by_fields : Option String := none
  return_geometry : Bool := true
  f : String := "json"
deriving DecidableEq, Repr

/-- Value stored under one key of a raw JSON attribute dictionary. -/
inductive AVal where
  | num (q : ℚ)
  | str (s : String)
  | null
deriving DecidableEq, Repr

/-- Raw JSON dictionary: ordered association list of key-value pairs. -/
abbrev AttrDict := List (String × AVal)

/-- Python dict lookup `m[k]` as an option (first binding wins). -/
def dget (m : AttrDict) (k : String) : Option AVal :=
  (m.find? (fun kv => kv.1 == k)).map (fun kv => kv.2)

/-- Python `m.get(k, d)` for a numeric field with a numeric default.
A present non-numeric value falls back to the default; upstream
attribute values for these keys are numeric, so this case is inert. -/
def getNumD (m : AttrDict) (k : String) (d : ℚ) : ℚ :=
  match dget m k with
  | some (.num q) => q
  | _ => d

/-- Python `m.get(k, d)` for a string field with a string default. -/
def getStrD (m : AttrDict) (k : String) (d : String) : String :=
  match dget m k with
  | some (.str s) => s
  | _ => d

/-- Python `m.get(k)` for an optional numeric field (absent or null
gives None). -/
def getNumOpt (m : AttrDict) (k : String) : Option ℚ :=
  match dget m k with
  | some (.num q) => some q
  | _ => none

/-- Python `m.get(k)` for an optional string field. -/
def getStrOpt (m : AttrDict) (k : String) : Option String :=
  match dget m k with
  | some (.str s) => some s
  | _ => none

/-- One raw feature of a page: the attributes and geometry sections,
each read by `feature.get` with an empty-dictionary default, so an
absent section is modelled as the empty dictionary. -/
structure RawFeature where
  attributes : AttrDict := []
  geometry : AttrDict := []
deriving DecidableEq, Repr

/-- One page of the feature service response (models.py,
EIAAtlasResponse), with the from_dict defaults for absent keys. -/
structure EIAAtlasResponse where
  object_id_field_name : String := ""
  geometry_type : String := ""
  features : List RawFeature := []
  exceeded_transfer_limit : Bool := false
deriving Repr

/-- Feature-to-record normalization (eia_atlas_client.py,
EIAAtlasClient._parse_feature_to_power_plant, lines 94-150): a pure
field-by-field optional lookup with defaults; geometry y/x take
precedence over attribute-level Latitude/Longitude. -/
def parse_feature_to_power_plant (feature : RawFeature) : PowerPlant :=
  let attrs := feature.attributes
  let geom := feature.geometry
  { object_id := getNumD attrs "OBJECTID" 0
    plant_code := getNumD attrs "Plant_Code" 0
    plant_name := getStrD attrs "Plant_Name" ""
    utility_name := getStrD attrs "Utility_Name" ""
    utility_id := getNumD attrs "Utility_ID" 0
    sector_name := getStrD attrs "Sector_Name" ""
    primary_source := getStrD attrs "PrimSource" ""
    location :=
      { latitude := getNumD geom "y" (getNumD attrs "Latitude" 0)
        longitude := getNumD geom "x" (getNumD attrs "Longitude" 0)
        city := getStrD attrs "City" ""
        county := getStrD attrs "County" ""
        state := getStrD attrs "StateName" ""
        zip_code := getNumOpt attrs "Zip"
        street_address := getStrOpt attrs "Street_Address" }
    capacity :=
      { total_mw := getNumOpt attrs "Total_MW"
        install_mw := getNumOpt attrs "Install_MW"
        coal_mw := getNumOpt attrs "Coal_MW"
        natural_gas_mw := getNumOpt attrs "NG_MW"
        nuclear_mw := getNumOpt attrs "Nuclear_MW"
        hydro_mw := getNumOpt attrs "Hydro_MW"
        hydro_pumped_mw := getNumOpt attrs "HydroPS_MW"
        solar_mw := getNumOpt attrs "Solar_MW"
        wind_mw := getNumOpt attrs "Wind_MW"
        geothermal_mw := getNumOpt attrs "Geo_MW"
        biomass_mw := getNumOpt attrs "Bio_MW"
        battery_mw := getNumOpt attrs "Bat_MW"
        crude_oil_mw := getNumOpt attrs "Crude_MW"
        other_mw := getNumOpt attrs "Other_MW" }
    tech_desc := getStrOpt attrs "tech_desc"
    source_desc := getStrOpt attrs "Source_Desc"
    data_period := getNumOpt attrs "Period"
    source := getStrOpt attrs "Source" }

/-- The service routing table (eia_atlas_client.py, EIAAtlasClient.SERVICES). -/
def SERVICES : List (String × String) :=
  [("all_plants", "ElectricPowerPlants/FeatureServer/0"),
   ("coal_plants", "Coal_Power_Plants/FeatureServer/0"),
   ("natural_gas_plants", "Natural_Gas_Power_Plants/FeatureServer/0"),
   ("nuclear_plants", "Nuclear_Power_Plants/FeatureServer/0"),
   ("hydro_plants", "Hydroelectric_Power_Plants/FeatureServer/0"),
   ("hydro_pumped_plants", "Hydro_Pumped_Storage_Power_Plants/FeatureServer/0"),
   ("solar_plants", "Solar_Power_Plants/FeatureServer/0"),
   ("wind_plants", "Wind_Power_Plants/FeatureServer/0"),
   ("geothermal_plants", "Geothermal_Power_Plants/FeatureServer/0"),
   ("battery_plants", "Battery_Storage_Plants/FeatureServer/0"),
   ("petroleum_plants", "Petroleum_Power_Plants/FeatureServer/0"),
   ("other_plants", "Other_Power_Plants/FeatureServer/0")]

/-- Python truthiness of the optional integer `limit` argument:
`if limit:` is false for both None and 0. -/
def limitTruthy : Option ℕ → Bool
  | none => false
  | some l => l != 0

/-- The `while True` pagination loop of get_power_plants
(eia_atlas_client.py lines 185-214), with the HTTP transport abstracted
as a function from the result offset to the page the server returns, and
explicit fuel bounding the number of iterations (the source loop is
unbounded; `none` means the fuel ran out before the loop terminated).
Returns the accumulated plants and the number of page requests issued. -/
def fetchLoop (transport : ℕ → EIAAtlasResponse) (batch_size : ℕ)
    (limit : Option ℕ) :
    ℕ → ℕ → List PowerPlant → ℕ → Option (List PowerPlant × ℕ)
  | 0, _, _, _ => none
  | fuel + 1, offset, all_plants, requests =>
    let response := transport offset
    if response.features.isEmpty then
      some (all_plants, requests + 1)
    else
      let all_plants :=
        all_plants ++ response.features.map parse_feature_to_power_plant
      if limitTruthy limit && decide (limit.getD 0 ≤ all_plants.length) then
        some (all_plants.take (limit.getD 0), requests + 1)
      else if response.features.length < batch_size ||
          response.exceeded_transfer_limit then
        some (all_plants, requests + 1)
      else
        fetchLoop transport batch_size limit fuel
          (offset + response.features.length) all_plants (requests + 1)

/-- EIAAtlasClient.get_power_plants (eia_atlas_client.py lines 152-217):
validates the service name, defaults the query parameters, overwrites
result_record_count with a truthy limit, computes the effective page size
(`result_record_count or 1000`), and runs the pagination loop. Returns
the plants, the query-parameter object as it stands after the call
(the source mutates the caller object in place), and the number of
page requests issued. -/
def get_power_plants (transport : ℕ → EIAAtlasResponse) (fuel : ℕ)
    (service : String) (query_params : Option PowerPlantQueryParams)
    (limit : Option ℕ) :
    Except String (List PowerPlant × PowerPlantQueryParams × ℕ) :=
  if (SERVICES.map Prod.fst).contains service = false then
    .error ("Unknown service: " ++ service)
  else
    let qp0 := query_params.getD {}
    let qp := if limitTruthy limit then
        { qp0 with result_record_count := limit } else qp0
    let batch_size := match qp.result_record_count with
      | some n => if n == 0 then 1000 else n
      | none => 1000
    match fetchLoop transport batch_size limit fuel 0 [] 0 with
    | some (all_plants, requests) => .ok (all_plants, qp, requests)
    | none => .error "pagination did not terminate within fuel"

/-- The energy-type-to-service routing table of get_plants_by_energy_type
(eia_atlas_client.py lines 235-246); Python dict literal in insertion
order. -/
def energy_type_service_mapping : List (EnergyType × String) :=
  [(.COAL, "coal_plants"),
   (.NATURAL_GAS, "natural_gas_plants"),
   (.NUCLEAR, "nuclear_plants"),
   (.HYDRO, "hydro_plants"),
   (.SOLAR, "solar_plants"),
   (.WIND, "wind_plants"),
   (.GEOTHERMAL, "geothermal_plants"),
   (.BATTERY, "battery_plants"),
   (.CRUDE_OIL, "petroleum_plants"),
   (.OTHER, "other_plants")]

/-- Lookup in the routing table (Python `energy_type in service_mapping`
then `service_mapping[energy_type]`). -/
def resolveService (energy_type : EnergyType) : Option String :=
  (energy_type_service_mapping.find? (fun kt => kt.1 = energy_type)).map
    (fun kt => kt.2)

/-- EIAAtlasClient.get_plants_by_energy_type (eia_atlas_client.py lines
219-253), with `fetch service limit` abstracting the call
`self.get_power_plants(service, limit=limit)`: a mapped type fetches its
dedicated service; an unmapped type fetches all_plants and filters by the
classifier. -/
def get_plants_by_energy_type (fetch : String → Option ℕ → List PowerPlant)
    (energy_type : EnergyType) (limit : Option ℕ) : List PowerPlant :=
  match resolveService energy_type with
  | some service => fetch service limit
  | none =>
    (fetch "all_plants" limit).filter
      (fun plant => plant.primary_energy_type = energy_type)

/-- The duplicate-removal loop of export_comprehensive_data
(src/scripts/export_comprehensive_data.py lines 55-63): insert each
plant into a dictionary keyed by plant_code only if the key is not
already present; the output is the dictionary values in insertion
order, i.e. the first occurrence of each plant_code in input order.
`seen` carries the keys already in the dictionary. -/
def removeDuplicatesAux : List PowerPlant → List ℚ → List PowerPlant
  | [], _ => []
  | plant :: rest, seen =>
    if seen.contains plant.plant_code then
      removeDuplicatesAux rest seen
    else
      plant :: removeDuplicatesAux rest (plant.plant_code :: seen)

/-- Deduplication keyed by plant_code, first occurrence wins
(export_comprehensive_data.py lines 55-63). -/
def removeDuplicates (plants : List PowerPlant) : List PowerPlant :=
  removeDuplicatesAux plants []

/-- IEEE-754 style value of the percentage column: pandas float64
arithmetic yields NaN for 0/0 and a signed infinity for x/0 with x ≠ 0
rather than raising. Finite values are modelled as rationals. -/
inductive FVal where
  | fin (q : ℚ)
  | nan
  | inf (pos : Bool)
deriving DecidableEq, Repr

/-- IEEE division of two finite float values (numpy float64 `/`). -/
def fdivQ (a b : ℚ) : FVal :=
  if b ≠ 0 then .fin (a / b)
  else if a = 0 then .nan
  else .inf (0 < a)

/-- Multiplication of a float value by a positive finite constant
(the `* 100` step; 100 > 0 preserves NaN and the sign of an infinity). -/
def fmulPos (x : FVal) (c : ℚ) : FVal :=
  match x with
  | .fin q => .fin (q * c)
  | .nan => .nan
  | .inf s => .inf s

/-- Round-half-to-even of a rational to an integer (numpy rounding). -/
def roundHalfEven (q : ℚ) : ℤ :=
  let fl := ⌊q⌋
  if q - fl < 1 / 2 then fl
  else if 1 / 2 < q - fl then fl + 1
  else if 2 ∣ fl then fl else fl + 1

/-- pandas Series.round(2): NaN and infinities pass through, finite
values round to two decimals. -/
def fround2 : FVal → FVal
  | .fin q => .fin ((roundHalfEven (q * 100) : ℚ) / 100)
  | v => v

/-- One row of the dataframe columns consumed by
DataAggregator.calculate_renewable_percentage: the `state`, `total_mw`
and `renewable_capacity_mw` columns produced by
EIAAtlasClient.to_dataframe (an absent total_mw is NaN in the frame and
is skipped by the groupby sum). -/
structure StateRow where
  state : String
  total_mw : Option ℚ := none
  renewable_capacity_mw : ℚ := 0
deriving DecidableEq, Repr

/-- The to_dataframe columns used by the aggregator (eia_atlas_client.py,
EIAAtlasClient.to_dataframe). -/
def toStateRow (p : PowerPlant) : StateRow :=
  { state := p.location.state
    total_mw := p.capacity.total_mw
    renewable_capacity_mw := p.capacity.get_renewable_capacity }

/-- groupby sum of total_mw for one state (pandas sums with skipna, so
absent values contribute 0, and an all-absent group sums to 0). -/
def sumTotalMw (rows : List StateRow) (s : String) : ℚ :=
  ((rows.filter (fun r => r.state = s)).map
    (fun r => r.total_mw.getD 0)).sum

/-- groupby sum of renewable_capacity_mw for one state. -/
def sumRenewableMw (rows : List StateRow) (s : String) : ℚ :=
  ((rows.filter (fun r => r.state = s)).map
    (fun r => r.renewable_capacity_mw)).sum

/-- The renewable_percentage column value for one state group
(filters.py lines 493-496): renewable sum divided by total sum, times
100, rounded to two decimals, under float64 semantics. -/
def statePercentage (rows : List StateRow) (s : String) : FVal :=
  fround2 (fmulPos (fdivQ (sumRenewableMw rows s) (sumTotalMw rows s)) 100)

/-- First-occurrence deduplication of the group keys. -/
def dedupStates : List String → List String
  | [] => []
  | s :: rest =>
    if (dedupStates rest).contains s then dedupStates rest
    else s :: dedupStates rest

/-- Insertion of one element into a sorted list, for the stable
insertion sort below. -/
def insertBy (before : α → α → Bool) (a : α) : List α → List α
  | [] => [a]
  | b :: rest => if before a b then a :: b :: rest else b :: insertBy before a rest

/-- Stable insertion sort. pandas sorting is modelled by it: the source
uses quicksort, whose order among rows with equal keys is unspecified,
and no claim depends on that order. -/
def sortBy (before : α → α → Bool) : List α → List α
  | [] => []
  | a :: rest => insertBy before a (sortBy before rest)

/-- Group keys of the pandas groupby over the state column: the
distinct states sorted
ascending (pandas groupby sorts group keys). -/
def groupKeys (rows : List StateRow) : List String :=
  sortBy (fun a b => a < b || a == b)
    (dedupStates (rows.map (fun r => r.state)))

/-- Descending comparison on percentage values placing NaN last
(pandas sort_values with ascending=False keeps NaN at the end). -/
def pctBefore : FVal → FVal → Bool
  | .nan, _ => false
  | _, .nan => true
  | .inf s, .inf t => s || !t
  | .inf s, .fin _ => s
  | .fin _, .inf t => !t
  | .fin a, .fin b => b ≤ a

/-- DataAggregator.calculate_renewable_percentage (filters.py lines
475-498) over the relevant dataframe columns: group by state, sum the
two capacity columns, derive the percentage column, and sort by it
descending. Each output row is (state, total sum, renewable sum,
percentage). -/
def calculate_renewable_percentage (rows : List StateRow) :
    List (String × ℚ × ℚ × FVal) :=
  sortBy (fun a b => pctBefore a.2.2.2 b.2.2.2)
    ((groupKeys rows).map (fun s =>
      (s, sumTotalMw rows s, sumRenewableMw rows s,
        statePercentage rows s)))

/-!  Concrete fixtures used by counterexamples and witnesses. -/

/-- A transport whose every page carries `n` copies of the empty raw
feature and the given exceeded-transfer-limit flag. -/
def transportReplicate (n : ℕ) (flag : Bool) : ℕ → EIAAtlasResponse :=
  fun _ => { features := List.replicate n {}, exceeded_transfer_limit := flag }

/-- A plant with the given code, name and primary source and neutral
remaining fields. -/
def mkPlant (code : ℚ) (name source : String) : PowerPlant :=
  { object_id := 0
    plant_code := code
    plant_name := name
    utility_name := ""
    utility_id := 0
    sector_name := ""
    primary_source := source
    location := { latitude := 0, longitude := 0, city := "", county := "",
                  state := "" }
    capacity := {} }

/-!  Claim theorems. -/

set_option maxRecDepth 100000 in
/-- C1. The code at eia_atlas_client.py line 210 breaks out of the
pagination loop when `len(response.features) < batch_size OR
response.exceeded_transfer_limit`; the spec requires continuing while
the page is full or the flag is true. First conjunct: a page of exactly
1000 features (page size 1000) with the flag true makes the code return
after a single request with the 1000 plants of that page, abandoning the
rest of the result set, where the claim requires a further page request.
Second conjunct: the same full page with the flag false makes the code
keep requesting pages (three requests exhaust fuel 3), where the claim
requires immediate termination. -/
theorem C1_code_stops_on_exceeded_flag :
    (get_power_plants (transportReplicate 1000 true) 2 "all_plants" none
        none).map (fun out => (out.1.length, out.2.2)) = .ok (1000, 1) ∧
    get_power_plants (transportReplicate 1000 false) 3 "all_plants" none
        none = .error "pagination did not terminate within fuel" := by
  constructor <;> rfl

/-- C3 counterexample. With limit 7 against a transport returning pages
of 5 features, get_power_plants returns 5 records after a single page
request, not the (7 records, second page) the claim states: the truthy
limit overwrites result_record_count, making the effective page size 7,
so the first 5-feature page is short and terminates the loop before the
limit is reached. -/
theorem C3_counterexample :
    (get_power_plants (transportReplicate 5 false) 3 "all_plants" none
        (some 7)).map (fun out => (out.1.length, out.2.2)) = .ok (5, 1) ∧
    ((5 : ℕ), (1 : ℕ)) ≠ ((7 : ℕ), (2 : ℕ)) := by
  exact ⟨rfl, by decide⟩

/-- C9. Classifying the canonical
string label of each keyword-reachable energy type returns that same
type, for all ten of Coal, NaturalGas,
Nuclear, Hydro, Solar, Wind, Geothermal, Biomass, Battery, CrudeOil. -/
theorem C9_classifier_round_trip :
    classifyPrimarySource EnergyType.COAL.value = .COAL ∧
    classifyPrimarySource EnergyType.NATURAL_GAS.value = .NATURAL_GAS ∧
    classifyPrimarySource EnergyType.NUCLEAR.value = .NUCLEAR ∧
    classifyPrimarySource EnergyType.HYDRO.value = .HYDRO ∧
    classifyPrimarySource EnergyType.SOLAR.value = .SOLAR ∧
    classifyPrimarySource EnergyType.WIND.value = .WIND ∧
    classifyPrimarySource EnergyType.GEOTHERMAL.value = .GEOTHERMAL ∧
    classifyPrimarySource EnergyType.BIOMASS.value = .BIOMASS ∧
    classifyPrimarySource EnergyType.BATTERY.value = .BATTERY ∧
    classifyPrimarySource EnergyType.CRUDE_OIL.value = .CRUDE_OIL := by
  decide

/-- C6. Energy classification is a case-insensitive substring match
against the ordered keyword table with first match winning, and it is a
total pure function: "Hydro Pumped Storage" and "Hydroelectric" both
classify as Hydro, and any string containing no keyword of the table
classifies as Other (classifyPrimarySource is total by construction, so
classification never fails). -/
theorem C6_classifier_substring_total :
    classifyPrimarySource "Hydro Pumped Storage" = .HYDRO ∧
    classifyPrimarySource "Hydroelectric" = .HYDRO ∧
    (∀ s : String,
      (∀ kt ∈ source_mapping, strContains kt.1 (strLower s) = false) →
      classifyPrimarySource s = .OTHER) := by
  refine ⟨by decide, by decide, fun s h => ?_⟩
  unfold classifyPrimarySource
  have hnone : source_mapping.find?
      (fun kt => strContains kt.1 (strLower s)) = none := by
    rw [List.find?_eq_none]
    intro kt hkt
    simp [h kt hkt]
  simp [hnone]

/-- C6 witness: a concrete string matching no keyword classifies as
Other. -/
theorem C6_witness :
    (∀ kt ∈ source_mapping,
      strContains kt.1 (strLower "Mystery Fuel") = false) ∧
    classifyPrimarySource "Mystery Fuel" = .OTHER :=
  ⟨by decide, C6_classifier_substring_total.2.2 "Mystery Fuel" (by decide)⟩

/-- C10. When neither the geometry keys y/x nor the attribute-level
Latitude/Longitude fields are present in a raw feature, the parsed
parsed location is the numeric pair (0, 0); parsing is a total
function, so it
still succeeds. -/
theorem C10_missing_coordinates_parse_as_zero
    (feature : RawFeature)
    (hy : dget feature.geometry "y" = none)
    (hx : dget feature.geometry "x" = none)
    (hla : dget feature.attributes "Latitude" = none)
    (hlo : dget feature.attributes "Longitude" = none) :
    (parse_feature_to_power_plant feature).location.latitude = 0 ∧
    (parse_feature_to_power_plant feature).location.longitude = 0 := by
  simp [parse_feature_to_power_plant, getNumD, hy, hx, hla, hlo]

/-- C10 witness: the wholly empty raw feature parses with location
(0, 0). -/
theorem C10_witness :
    dget (RawFeature.geometry {}) "y" = none ∧
    dget (RawFeature.geometry {}) "x" = none ∧
    dget (RawFeature.attributes {}) "Latitude" = none ∧
    dget (RawFeature.attributes {}) "Longitude" = none ∧
    ((parse_feature_to_power_plant {}).location.latitude = 0 ∧
     (parse_feature_to_power_plant {}).location.longitude = 0) :=
  ⟨rfl, rfl, rfl, rfl,
    C10_missing_coordinates_parse_as_zero {} rfl rfl rfl rfl⟩

/-- C2. Whenever an iteration of the pagination loop proceeds to another
page — the page is nonempty, the limit cut did not fire, and the
continue condition held — the next iteration runs at offset equal to the
previous offset plus the number of features actually received
(the length of the feature list of that page), with its parsed plants
appended to the accumulator. In particular the offset never advances by
the configured page size except when the page happened to contain
exactly that many features. -/
theorem C2_offset_advances_by_received_count
    (transport : ℕ → EIAAtlasResponse) (batch_size : ℕ) (limit : Option ℕ)
    (fuel offset requests : ℕ) (acc : List PowerPlant)
    (hne : (transport offset).features.isEmpty = false)
    (hlim : (limitTruthy limit && decide (limit.getD 0 ≤
      (acc ++ (transport offset).features.map
        parse_feature_to_power_plant).length)) = false)
    (hfull : ((transport offset).features.length < batch_size ||
      (transport offset).exceeded_transfer_limit) = false) :
    fetchLoop transport batch_size limit (fuel + 1) offset acc requests =
      fetchLoop transport batch_size limit fuel
        (offset + (transport offset).features.length)
        (acc ++ (transport offset).features.map parse_feature_to_power_plant)
        (requests + 1) := by
  simp only [fetchLoop, hne, hlim, hfull]
  simp

/-- C2 witness: with full 5-feature pages, flag false, page size 5 and
no limit, the first iteration recurses at offset 0 + 5. -/
theorem C2_witness :
    (transportReplicate 5 false 0).features.isEmpty = false ∧
    (limitTruthy none && decide ((none : Option ℕ).getD 0 ≤
      (([] : List PowerPlant) ++ (transportReplicate 5 false 0).features.map
        parse_feature_to_power_plant).length)) = false ∧
    ((transportReplicate 5 false 0).features.length < 5 ||
      (transportReplicate 5 false 0).exceeded_transfer_limit) = false ∧
    fetchLoop (transportReplicate 5 false) 5 none 1 0 [] 0 =
      fetchLoop (transportReplicate 5 false) 5 none 0
        (0 + (transportReplicate 5 false 0).features.length)
        (([] : List PowerPlant) ++ (transportReplicate 5 false 0).features.map
          parse_feature_to_power_plant) 1 :=
  ⟨by decide, by decide, by decide,
    C2_offset_advances_by_received_count (transportReplicate 5 false) 5
      none 0 0 0 [] (by decide) (by decide) (by decide)⟩

/-- C3 amended. When a truthy limit is set and appending the current
page makes the accumulator reach or exceed it, the loop returns exactly
limit records (the accumulator truncated to limit) and terminates with
that request; but a page shorter than the effective page size terminates
the loop before the limit is reached, so limit=7 over pages of 5
returns 5 records after a single page request (the truthy limit also
overwrites result_record_count, making the effective page size 7). -/
theorem C3_limit_truncates_to_exactly_limit :
    (∀ (transport : ℕ → EIAAtlasResponse)
       (batch_size l fuel offset requests : ℕ) (acc : List PowerPlant),
       l ≠ 0 →
       (transport offset).features.isEmpty = false →
       l ≤ acc.length + (transport offset).features.length →
       fetchLoop transport batch_size (some l) (fuel + 1) offset acc
           requests =
         some ((acc ++ (transport offset).features.map
             parse_feature_to_power_plant).take l, requests + 1) ∧
       ((acc ++ (transport offset).features.map
           parse_feature_to_power_plant).take l).length = l) ∧
    (get_power_plants (transportReplicate 5 false) 3 "all_plants" none
        (some 7)).map (fun out => (out.1.length, out.2.2)) = .ok (5, 1) := by
  constructor
  · intro transport batch_size l fuel offset requests acc hl hne hreach
    have hlen : l ≤ (acc ++ (transport offset).features.map
        parse_feature_to_power_plant).length := by
      simpa using hreach
    constructor
    · simp only [fetchLoop, hne]
      simp only [limitTruthy]
      simp [hl, hlen]
      intro hcon
      simp at hlen
      omega
    · rw [List.length_take]
      exact Nat.min_eq_left hlen
  · rfl

/-- C3 witness: limit 3 against a first page of 5 features returns the
first 3 parsed plants with that single request. -/
theorem C3_witness :
    (3 : ℕ) ≠ 0 ∧
    (transportReplicate 5 false 0).features.isEmpty = false ∧
    3 ≤ ([] : List PowerPlant).length +
      (transportReplicate 5 false 0).features.length ∧
    (fetchLoop (transportReplicate 5 false) 5 (some 3) 1 0 [] 0 =
      some ((([] : List PowerPlant) ++
        (transportReplicate 5 false 0).features.map
          parse_feature_to_power_plant).take 3, 0 + 1) ∧
     ((([] : List PowerPlant) ++ (transportReplicate 5 false 0).features.map
        parse_feature_to_power_plant).take 3).length = 3) :=
  ⟨by decide, by decide, by decide,
    C3_limit_truncates_to_exactly_limit.1 (transportReplicate 5 false) 5 3
      0 0 0 [] (by decide) (by decide) (by decide)⟩

/-- C4 counterexample. The routing table of get_plants_by_energy_type
does contain a dedicated service for Other ("other_plants"), so a
request for Other fetches that service directly and applies no
client-side classifier filter: a stub transport whose other_plants
service holds a coal-classified plant returns that plant unfiltered. -/
theorem C4_counterexample :
    resolveService .OTHER = some "other_plants" ∧
    get_plants_by_energy_type
        (fun service _ => if service = "other_plants"
          then [mkPlant 1 "misc" "Coal"] else []) .OTHER none =
      [mkPlant 1 "misc" "Coal"] ∧
    (mkPlant 1 "misc" "Coal").primary_energy_type = .COAL := by
  refine ⟨by decide, ?_, by decide⟩
  rfl

/-- C4 amended. The routing maps exactly the ten types Coal, NaturalGas,
Nuclear, Hydro, Solar, Wind, Geothermal, Battery, CrudeOil and Other to
dedicated service endpoints; only HydroPumped and Biomass have none, and
for those the full unfiltered dataset is fetched and the classifier is
applied as a client-side filter, so every returned plant has
primary_energy_type equal to the requested type. -/
theorem C4_routing_ten_types_and_fallback_filter :
    energy_type_service_mapping.map Prod.fst =
      [.COAL, .NATURAL_GAS, .NUCLEAR, .HYDRO, .SOLAR, .WIND, .GEOTHERMAL,
       .BATTERY, .CRUDE_OIL, .OTHER] ∧
    resolveService .HYDRO_PUMPED = none ∧
    resolveService .BIOMASS = none ∧
    (∀ (fetch : String → Option ℕ → List PowerPlant) (t : EnergyType)
       (limit : Option ℕ) (p : PowerPlant),
       resolveService t = none →
       p ∈ get_plants_by_energy_type fetch t limit →
       p.primary_energy_type = t) := by
  refine ⟨by decide, by decide, by decide, ?_⟩
  intro fetch t limit p hnone hmem
  unfold get_plants_by_energy_type at hmem
  rw [hnone] at hmem
  have := (List.mem_filter.mp hmem).2
  simpa using this

/-- C4 witness: Biomass has no dedicated service, and a biomass plant
surviving the fallback filter classifies as Biomass. -/
theorem C4_witness :
    resolveService .BIOMASS = none ∧
    mkPlant 2 "bio" "Biomass" ∈ get_plants_by_energy_type
      (fun _ _ => [mkPlant 2 "bio" "Biomass"]) .BIOMASS none ∧
    (mkPlant 2 "bio" "Biomass").primary_energy_type = .BIOMASS :=
  ⟨by decide, by decide,
    C4_routing_ten_types_and_fallback_filter.2.2.2
      (fun _ _ => [mkPlant 2 "bio" "Biomass"]) .BIOMASS none
      (mkPlant 2 "bio" "Biomass") (by decide) (by decide)⟩

/-- C5 counterexample. get_power_plants mutates the query
parameters of the caller when a truthy limit is passed
(eia_atlas_client.py lines
175-176): a params object passed with result_record_count = None comes
back with result_record_count = 5 after a call with limit = 5. -/
theorem C5_counterexample :
    (get_power_plants (transportReplicate 0 false) 1 "all_plants"
        (some {}) (some 5)).map
      (fun out => out.2.1.result_record_count) = .ok (some 5) ∧
    (some 5 : Option ℕ) ≠ (PowerPlantQueryParams.result_record_count {}) := by
  exact ⟨rfl, by decide⟩

/-- C5 amended. The query-parameter object of the caller is returned
unchanged exactly when the limit argument is falsy (None or 0); when a
truthy limit is passed, its result_record_count field is
overwritten with the limit and every other field is unchanged. -/
theorem C5_query_params_mutated_only_by_truthy_limit :
    (∀ (transport : ℕ → EIAAtlasResponse) (fuel : ℕ) (service : String)
       (qp : PowerPlantQueryParams) (limit : Option ℕ)
       (out : List PowerPlant × PowerPlantQueryParams × ℕ),
       limitTruthy limit = false →
       get_power_plants transport fuel service (some qp) limit = .ok out →
       out.2.1 = qp) ∧
    (∀ (transport : ℕ → EIAAtlasResponse) (fuel : ℕ) (service : String)
       (qp : PowerPlantQueryParams) (limit : Option ℕ)
       (out : List PowerPlant × PowerPlantQueryParams × ℕ),
       limitTruthy limit = true →
       get_power_plants transport fuel service (some qp) limit = .ok out →
       out.2.1 = { qp with result_record_count := limit }) := by
  constructor
  · intro transport fuel service qp limit out hfalse hok
    unfold get_power_plants at hok
    simp only [hfalse] at hok
    split at hok
    · exact absurd hok (by simp)
    · split at hok
      · simp at hok
        rw [← hok]
      · exact absurd hok (by simp)
  · intro transport fuel service qp limit out htrue hok
    unfold get_power_plants at hok
    simp only [htrue] at hok
    split at hok
    · exact absurd hok (by simp)
    · split at hok
      · simp at hok
        rw [← hok]
      · exact absurd hok (by simp)

/-- C5 witness: a default params object passed with limit 5 comes back
with result_record_count overwritten to 5. -/
theorem C5_witness :
    limitTruthy (some 5) = true ∧
    (get_power_plants (transportReplicate 0 false) 1 "all_plants"
        (some {}) (some 5) =
      .ok ([], { result_record_count := some 5 }, 1)) ∧
    (([] : List PowerPlant),
      ({ result_record_count := some 5 } : PowerPlantQueryParams), 1).2.1 =
      { ({} : PowerPlantQueryParams) with result_record_count := some 5 } :=
  ⟨by decide, by rfl,
    C5_query_params_mutated_only_by_truthy_limit.2
      (transportReplicate 0 false) 1 "all_plants" {} (some 5)
      ([], { result_record_count := some 5 }, 1) (by decide) (by rfl)⟩

/-- Generalized deduplication invariant: among the output of the
deduplication loop run with `seen` keys already in the dictionary, the
records with plant_code c are exactly none when c was already seen, and
exactly the first input record with that code otherwise. -/
theorem removeDuplicatesAux_filter (c : ℚ) :
    ∀ (plants : List PowerPlant) (seen : List ℚ),
      (removeDuplicatesAux plants seen).filter
          (fun p => p.plant_code = c) =
        if seen.contains c then []
        else ((plants.find? (fun p => p.plant_code = c)).toList) := by
  intro plants
  induction plants with
  | nil =>
    intro seen
    simp [removeDuplicatesAux]
  | cons p rest ih =>
    intro seen
    simp only [removeDuplicatesAux]
    by_cases hs : seen.contains p.plant_code = true
    · rw [if_pos hs, ih seen]
      by_cases hc : p.plant_code = c
      · have hmem : c ∈ seen := by
          have : seen.contains c = true := hc ▸ hs
          simpa using this
        simp [hmem]
      · simp only [List.find?_cons]
        have hdec : (decide (p.plant_code = c)) = false := by
          simp [hc]
        rw [hdec]
    · rw [if_neg hs]
      by_cases hc : p.plant_code = c
      · subst hc
        have hnmem : p.plant_code ∉ seen := by
          simpa using hs
        rw [List.filter_cons_of_pos (by simp), ih]
        have hmem : p.plant_code ∈ p.plant_code :: seen := List.mem_cons_self _ _
        simp [hmem, hnmem]
      · rw [List.filter_cons_of_neg (by simp [hc]), ih]
        have hcons : (p.plant_code :: seen).contains c = seen.contains c := by
          simp only [List.contains_cons]
          have : (c == p.plant_code) = false := by
            simp
            exact fun h => absurd h.symm hc
          rw [this, Bool.false_or]
        rw [hcons]
        simp only [List.find?_cons]
        have hdec : (decide (p.plant_code = c)) = false := by
          simp [hc]
        rw [hdec]

/-- C7. Deduplication keyed by plant_code keeps the first occurrence and
silently drops later duplicates: for every input list and every code c,
the records of the output with plant_code c are exactly the first input
record with that code (so exactly one per code present in the input);
and the three-plant example keeps the first code-1 record and drops the
later duplicate. -/
theorem C7_dedup_keeps_first_occurrence :
    (∀ (plants : List PowerPlant) (c : ℚ),
      (removeDuplicates plants).filter (fun p => p.plant_code = c) =
        (plants.find? (fun p => p.plant_code = c)).toList) ∧
    removeDuplicates
        [mkPlant 1 "first" "", mkPlant 2 "second" "", mkPlant 1 "third" ""] =
      [mkPlant 1 "first" "", mkPlant 2 "second" ""] := by
  constructor
  · intro plants c
    have h := removeDuplicatesAux_filter c plants []
    simpa [removeDuplicates] using h
  · rfl

/-- A dataframe row with an absent total_mw and 5 MW of renewable
capacity (e.g. a plant reporting only Solar_MW = 5). -/
def rowTX : StateRow :=
  { state := "TX", total_mw := none, renewable_capacity_mw := 5 }

/-- A dataframe row with total_mw 0 and renewable capacity 0. -/
def rowNV : StateRow :=
  { state := "NV", total_mw := some 0, renewable_capacity_mw := 0 }

/-- C8 counterexample. A single-state group whose total_mw sum is zero
while its renewable sum is 5 (one plant with an absent total_mw and 5 MW
of solar) yields positive infinity under float64 semantics, not the NaN
sentinel the claim states for every zero-total group. -/
theorem C8_counterexample :
    calculate_renewable_percentage [rowTX] =
      [("TX", 0, 5, FVal.inf true)] ∧
    FVal.inf true ≠ FVal.nan := by
  have ht : sumTotalMw [rowTX] "TX" = 0 := by
    simp [sumTotalMw, rowTX]
  have hr : sumRenewableMw [rowTX] "TX" = 5 := by
    simp [sumRenewableMw, rowTX]
  refine ⟨?_, by decide⟩
  have hpct : statePercentage [rowTX] "TX" = FVal.inf true := by
    rw [statePercentage, ht, hr]
    rw [show fdivQ 5 0 = FVal.inf true by
      rw [fdivQ]
      norm_num]
    rfl
  simp only [rowTX] at ht hr hpct
  simp [calculate_renewable_percentage, groupKeys, dedupStates, rowTX,
    sortBy, insertBy, hpct, ht, hr]

/-- C8 amended. For every state group whose total capacity sum is zero,
the percentage is never the finite value 0 and no division error is
raised (the computation is total): it is the NaN sentinel exactly when
the renewable sum of the group is also zero, and a signed infinity when the
renewable sum is nonzero. -/
theorem C8_zero_total_yields_non_finite
    (rows : List StateRow) (s : String)
    (h : sumTotalMw rows s = 0) :
    (sumRenewableMw rows s = 0 → statePercentage rows s = .nan) ∧
    (sumRenewableMw rows s ≠ 0 →
      statePercentage rows s = .inf (0 < sumRenewableMw rows s)) ∧
    (∀ q : ℚ, statePercentage rows s ≠ .fin q) := by
  refine ⟨fun hr => ?_, fun hr => ?_, fun q => ?_⟩
  · simp [statePercentage, h, hr, fdivQ, fmulPos, fround2]
  · simp [statePercentage, h, hr, fdivQ, fmulPos, fround2]
  · by_cases hr : sumRenewableMw rows s = 0 <;>
      simp [statePercentage, h, hr, fdivQ, fmulPos, fround2]

/-- C8 witness: a single-state group with total_mw sum 0 and renewable
sum 0 yields the NaN sentinel. -/
theorem C8_witness :
    sumTotalMw [rowNV] "NV" = 0 ∧
    sumRenewableMw [rowNV] "NV" = 0 ∧
    statePercentage [rowNV] "NV" = .nan :=
  ⟨by simp [sumTotalMw, rowNV], by simp [sumRenewableMw, rowNV],
    (C8_zero_total_yields_non_finite [rowNV] "NV"
      (by simp [sumTotalMw, rowNV])).1 (by simp [sumRenewableMw, rowNV])⟩

end RenewableViz
